import Mathlib

/-!
Shallow embedding of the ResQlink alert backend (src/backend/server.js):
phone validation/formatting, the WhatsApp send wrapper, the per-contact
dispatch loop, the in-memory alert deduplication store with its sweep, and
the two POST routes (/api/send-alert and /api/test-message), together with
theorems settling the specification's claims about them.
-/

namespace ResQlink

/-! ### PhoneFormatter (server.js lines 36-53) -/

/-- JavaScript regex `\s` character class (ECMAScript WhiteSpace and
LineTerminator code points), used by `phone.replace(/\s/g, '')`. -/
def isJsWhitespace (c : Char) : Bool :=
  c.val = 0x09 || c.val = 0x0a || c.val = 0x0b || c.val = 0x0c || c.val = 0x0d ||
  c.val = 0x20 || c.val = 0xa0 || c.val = 0x1680 ||
  (0x2000 ≤ c.val && c.val ≤ 0x200a) ||
  c.val = 0x2028 || c.val = 0x2029 || c.val = 0x202f || c.val = 0x205f ||
  c.val = 0x3000 || c.val = 0xfeff

/-- `phone.replace(/\s/g, '')`: the string with all whitespace removed. -/
def stripWhitespace (s : String) : String :=
  ⟨s.data.filter (fun c => !isJsWhitespace c)⟩

/-- JavaScript regex `\d` character class. -/
def isDigitChar (c : Char) : Bool :=
  '0' ≤ c && c ≤ '9'

/-- The regex character class `[1-9]`. -/
def isNonZeroDigit (c : Char) : Bool :=
  '1' ≤ c && c ≤ '9'

/-- The part `[1-9]\d{1,14}` of the E.164 regex, applied to a list of
characters that must be consumed entirely (the regex is anchored). -/
def e164Body : List Char → Bool
  | [] => false
  | c :: rest =>
      isNonZeroDigit c && rest.all isDigitChar &&
      decide (1 ≤ rest.length) && decide (rest.length ≤ 14)

/-- `/^\+?[1-9]\d{1,14}$/.test(s)`: an optional leading plus, then
`[1-9]\d{1,14}`, anchored at both ends (a leading plus, when present, is
consumed by `\+?`; it can never satisfy `[1-9]`, so no backtracking case is
lost). -/
def e164Test (s : String) : Bool :=
  if s.data.head? = some '+' then e164Body s.data.tail else e164Body s.data

/-- `validatePhoneNumber` (server.js lines 36-40): E.164 format validation of
the phone string with all whitespace removed. -/
def validatePhoneNumber (phone : String) : Bool :=
  e164Test (stripWhitespace phone)

/-- `phone.replace(/\D/g, '')`: the string with every non-digit removed. -/
def digitsOf (s : String) : String :=
  ⟨s.data.filter isDigitChar⟩

/-- `formatPhoneNumber` (server.js lines 43-53): strip non-digits; unless the
result starts with a plus (it never can, being digits only), prepend the US
country code `1` when exactly 10 digits remain, then prepend a plus. -/
def formatPhoneNumber (phone : String) : String :=
  let cleaned := digitsOf phone
  if cleaned.data.head? = some '+' then
    cleaned
  else
    let cleaned2 := if cleaned.length = 10 then "1" ++ cleaned else cleaned
    "+" ++ cleaned2

/-! ### The messaging capability and `sendWhatsAppMessage` (server.js lines 56-78) -/

/-- Outcome of `client.messages.create`: either a resolved message record
(`sid`, `status`) or a thrown error carrying `error.message`. -/
abbrev CapOutcome := Except String (String × String)

/-- The host environment: the Twilio capability and the two host/locale
dependent renderings used by the alert message template (`${location.lat}`
string interpolation of a JS number, and `new Date(ts).toLocaleString()`). -/
structure Env where
  send : String → String → CapOutcome
  renderNum : ℚ → String
  renderTime : String → String

/-- The payload `sendWhatsAppMessage` resolves with: `{success, sid, status}`
on success, `{success: false, error}` when the create call threw. -/
structure SendPayload where
  success : Bool
  sid : Option String := none
  status : Option String := none
  error : Option String := none
deriving DecidableEq, Repr

/-- `sendWhatsAppMessage` (server.js lines 56-78): format the number, invoke
the capability on `whatsapp:<formatted>` and the body, catch any throw.
Also returns the list of capability invocations made (always exactly one). -/
def sendWhatsAppMessage (cap : String → String → CapOutcome) (toNum message : String) :
    SendPayload × List (String × String) :=
  let formattedNumber := formatPhoneNumber toNum
  let dest := "whatsapp:" ++ formattedNumber
  match cap dest message with
  | .ok (sid, status) =>
      ({ success := true, sid := some sid, status := some status }, [(dest, message)])
  | .error e =>
      ({ success := false, error := some e }, [(dest, message)])

/-! ### Contacts and the dispatch loop (server.js lines 135-159) -/

/-- A JavaScript value found in a contact object's `phone` field. -/
inductive JsField
  | absent
  | strF (s : String)
  | numF (n : Int)
  | nullF
deriving DecidableEq, Repr

/-- A JavaScript value supplied as an element of `contacts`: a bare phone
string, an object (with a `phone` field value and an optional string `name`),
`null`, or a number. -/
inductive JsContact
  | str (s : String)
  | obj (phone : JsField) (name : Option String)
  | nullc
  | num (n : Int)
deriving DecidableEq, Repr

/-- One `DispatchResult` record pushed onto `results`. -/
structure DispatchResult where
  phone : String
  name : String
  success : Bool
  sid : Option String := none
  status : Option String := none
  error : Option String := none
deriving DecidableEq, Repr

/-- The body of the loop once `phone` resolved to a string and `name` to a
string: validate, and either record the invalid-format failure without
touching the capability, or send and merge the payload. -/
def sendOne (cap : String → String → CapOutcome) (message phone name : String) :
    DispatchResult × List (String × String) :=
  if validatePhoneNumber phone then
    let (p, calls) := sendWhatsAppMessage cap phone message
    ({ phone := phone, name := name, success := p.success, sid := p.sid,
       status := p.status, error := p.error }, calls)
  else
    ({ phone := phone, name := name, success := false,
       error := some "Invalid phone number format" }, [])

/-- JavaScript `x || 'default'` on an optional string (absent and the empty
string are falsy). -/
def jsOr (x : Option String) (dflt : String) : String :=
  match x with
  | some s => if s = "" then dflt else s
  | none => dflt

/-- One iteration of the dispatch loop (server.js lines 136-158):
`const phone = contact.phone || contact` (throws on `null`), then
`validatePhoneNumber(phone)` (throws via `phone.replace` when `phone` is not
a string — a number, or the contact object itself when the `phone` field is
absent, `null`, falsy, or not a string). -/
def contactStep (cap : String → String → CapOutcome) (message : String) :
    JsContact → Except String (DispatchResult × List (String × String))
  | .nullc => .error "TypeError"
  | .num _ => .error "TypeError"
  | .str s => .ok (sendOne cap message s "Emergency Contact")
  | .obj pf nf =>
      match pf with
      | .strF s =>
          if s = "" then .error "TypeError"
          else .ok (sendOne cap message s (jsOr nf "Emergency Contact"))
      | _ => .error "TypeError"

/-- The `for (const contact of contacts)` loop: sequential, in input order;
an uncaught throw aborts the loop and discards `results`. The capability
invocations made before an abort are still reported. -/
def dispatchLoop (cap : String → String → CapOutcome) (message : String) :
    List JsContact → Except String (List DispatchResult) × List (String × String)
  | [] => (.ok [], [])
  | c :: rest =>
      match contactStep cap message c with
      | .error e => (.error e, [])
      | .ok (r, calls) =>
          let (res, calls2) := dispatchLoop cap message rest
          (res.map (fun rs => r :: rs), calls ++ calls2)

/-- The contact shapes the loop processes without throwing: a bare string, or
an object whose `phone` field is a truthy (non-empty) string. -/
def wellFormed : JsContact → Bool
  | .str _ => true
  | .obj (.strF s) _ => decide (s ≠ "")
  | _ => false

/-! ### The /api/send-alert route (server.js lines 88-176) -/

/-- The request's `contacts` field: absent (or otherwise falsy), present but
not an array, or an array of contact values. -/
inductive ContactsField
  | missing
  | nonArray
  | arr (cs : List JsContact)
deriving DecidableEq, Repr

/-- A coordinate field of `location`: a JS number, or anything whose `typeof`
is not `'number'` (absent, string, null, ...). -/
inductive NumField
  | num (q : ℚ)
  | nonNum
deriving DecidableEq

/-- The request's `location` field: absent/falsy, or an object with `lat` and
`lng` fields. -/
inductive LocationField
  | missing
  | loc (lat lng : NumField)
deriving DecidableEq

/-- The body of a POST /api/send-alert request. `timestamp` is kept in the
string form the template literal interpolates it to. -/
structure AlertRequest where
  contacts : ContactsField
  location : LocationField
  timestamp : String
  userName : Option String
deriving DecidableEq

/-- `n` padded with leading zeros to (at least) three digits. -/
def pad3 (n : Nat) : String :=
  if n < 10 then "00" ++ toString n
  else if n < 100 then "0" ++ toString n
  else toString n

/-- `q * 1000` rounded to the nearest integer, ties to the larger value (the
candidate ECMAScript `Number.prototype.toFixed` picks for the non-negative
value it rounds): for `q = n/d` this is `⌊q * 1000 + 1/2⌋ =
⌊(2000 n + d) / (2 d)⌋`, written with integer floor division so that it
evaluates by kernel reduction. -/
def scaled3 (q : ℚ) : ℤ :=
  Int.fdiv (2000 * q.num + q.den) (2 * q.den)

/-- `q.toFixed(3)`: fixed-point rendering with exactly three decimals.
ECMAScript ToFixed first negates a negative value and prepends the sign, so
ties round toward the larger magnitude for negatives and a tiny negative
renders as "-0.000". -/
def toFixed3 (q : ℚ) : String :=
  let sign := if q < 0 then "-" else ""
  let scaled : ℤ := scaled3 (if q < 0 then -q else q)
  sign ++ toString (scaled.natAbs / 1000) ++ "." ++ pad3 (scaled.natAbs % 1000)

/-- The dedup fingerprint (server.js line 102):
`` `${timestamp}-${location.lat.toFixed(3)}-${location.lng.toFixed(3)}` ``. -/
def alertKey (timestamp : String) (lat lng : ℚ) : String :=
  timestamp ++ "-" ++ toFixed3 lat ++ "-" ++ toFixed3 lng

/-- The `recentAlerts` map: fingerprint to insertion time (epoch ms), in
insertion order. -/
abbrev AlertStore := List (String × ℤ)

/-- `recentAlerts.has(key)`. -/
def storeHas (store : AlertStore) (key : String) : Bool :=
  store.any (fun e => decide (e.1 = key))

/-- The sweep (server.js lines 110-116): delete every entry strictly older
than five minutes before `now`. -/
def sweep (now : ℤ) (store : AlertStore) : AlertStore :=
  store.filter (fun e => !decide (e.2 < now - 5 * 60 * 1000))

/-- The alert message template (server.js lines 119-132), with the maps link
built from the raw coordinates and the locale-formatted timestamp. -/
def composeAlert (env : Env) (userName : Option String) (lat lng : ℚ)
    (timestamp : String) : String :=
  let mapsLink := "https://maps.google.com/?q=" ++ env.renderNum lat ++ "," ++ env.renderNum lng
  let formattedTime := env.renderTime timestamp
  "🚨 *EMERGENCY ALERT* 🚨\n\nAn accident has been detected for *" ++
    jsOr userName "User" ++
    "*!\n\n📍 *Location:* " ++ mapsLink ++ "\n🕐 *Time:* " ++ formattedTime ++
    "\n\n⚠️ *IMPORTANT:* This is an automated emergency alert. Please respond or dispatch help immediately!\n\n---\nSent via Smart Accident Alert System"

/-- The HTTP response of the alert route: 400 validation error, 429
duplicate, 200 success envelope, or the catch-all 500. -/
inductive AlertResponse
  | badRequest (error : String)
  | tooMany (error : String)
  | okResp (success : Bool) (message : String) (results : List DispatchResult)
  | serverError (error : String)
deriving DecidableEq, Repr

/-- The HTTP status code each response is sent with (`res.status(...)`;
`res.json` alone is 200). -/
def AlertResponse.statusCode : AlertResponse → Nat
  | .badRequest _ => 400
  | .tooMany _ => 429
  | .okResp _ _ _ => 200
  | .serverError _ => 500

/-- What one handler run produced: the response, the `recentAlerts` store
after the run, and the capability invocations made. -/
structure HandlerOut where
  resp : AlertResponse
  store : AlertStore
  calls : List (String × String)
deriving DecidableEq

/-- The POST /api/send-alert handler (server.js lines 88-176): field
validation, dedup check against `recentAlerts`, insertion and sweep, message
composition, the dispatch loop, and the summary response; an uncaught throw
from the loop lands in the catch as a 500 (the store mutations persist). -/
def handleSendAlert (env : Env) (now : ℤ) (store : AlertStore)
    (req : AlertRequest) : HandlerOut :=
  match req.contacts with
  | .missing => ⟨.badRequest "No contacts provided", store, []⟩
  | .nonArray => ⟨.badRequest "No contacts provided", store, []⟩
  | .arr contacts =>
    if contacts.length = 0 then
      ⟨.badRequest "No contacts provided", store, []⟩
    else
      match req.location with
      | .missing => ⟨.badRequest "Invalid location data", store, []⟩
      | .loc latF lngF =>
        match latF, lngF with
        | .num lat, .num lng =>
          let key := alertKey req.timestamp lat lng
          if storeHas store key then
            ⟨.tooMany "Duplicate alert detected. Please wait before sending another alert.",
             store, []⟩
          else
            let store2 := sweep now (store ++ [(key, now)])
            let message := composeAlert env req.userName lat lng req.timestamp
            match dispatchLoop env.send message contacts with
            | (.error _, calls) => ⟨.serverError "Internal server error", store2, calls⟩
            | (.ok results, calls) =>
              let successful := (results.filter (fun r => r.success)).length
              let failed := (results.filter (fun r => !r.success)).length
              ⟨.okResp true ("Alerts sent: " ++ toString successful ++ " successful, " ++
                  toString failed ++ " failed") results,
               store2, calls⟩
        | _, _ => ⟨.badRequest "Invalid location data", store, []⟩

/-! ### The /api/test-message route (server.js lines 179-203) -/

/-- The body of a POST /api/test-message request; `none` stands for an absent
`phone` field, and the empty string is equally falsy. -/
structure TestRequest where
  phone : Option String
  name : Option String
deriving DecidableEq

/-- The test route's response: 400 when no phone was given, else the 200
envelope echoing the send payload. -/
inductive TestResponse
  | badRequest (error : String)
  | okResp (success : Bool) (message : String) (details : SendPayload)
deriving DecidableEq, Repr

/-- The HTTP status code of a test route response. -/
def TestResponse.statusCode : TestResponse → Nat
  | .badRequest _ => 400
  | .okResp _ _ _ => 200

/-- The fixed test message body (server.js line 189). -/
def testBody : String :=
  "🧪 *Test Message*\n\nThis is a test from the Smart Accident Alert System.\n\nIf you receive this, your WhatsApp integration is working correctly!\n\n✅ System Status: Operational"

/-- The POST /api/test-message handler (server.js lines 179-203): presence
check on `phone` only, one `formatPhoneNumber` in the route and a second one
inside `sendWhatsAppMessage`; `validatePhoneNumber` is never consulted. -/
def handleTestMessage (env : Env) (req : TestRequest) :
    TestResponse × List (String × String) :=
  match req.phone with
  | none => (.badRequest "Phone number required", [])
  | some p =>
    if p = "" then (.badRequest "Phone number required", [])
    else
      let formattedPhone := formatPhoneNumber p
      let (result, calls) := sendWhatsAppMessage env.send formattedPhone testBody
      ((.okResp result.success
          (if result.success then "Test message sent!" else "Failed to send test message")
          result), calls)

/-! ### Claim C6: characterization of `validatePhoneNumber` -/

/-- The specification's wording for `validate`: after stripping whitespace,
an optional leading `+`, a first digit 1-9, then 1 to 14 further digits
(so 2 to 15 significant digits in total, `1 + rest.length`). -/
def E164Spec (t : String) : Prop :=
  ∃ c0 rest, (t.data = c0 :: rest ∨ t.data = '+' :: c0 :: rest) ∧
    isNonZeroDigit c0 = true ∧ (∀ c ∈ rest, isDigitChar c = true) ∧
    1 ≤ rest.length ∧ rest.length ≤ 14

theorem e164Body_iff (l : List Char) :
    e164Body l = true ↔ ∃ c0 rest, l = c0 :: rest ∧ isNonZeroDigit c0 = true ∧
      (∀ c ∈ rest, isDigitChar c = true) ∧ 1 ≤ rest.length ∧ rest.length ≤ 14 := by
  cases l with
  | nil => simp [e164Body]
  | cons c rest =>
      simp only [e164Body, Bool.and_eq_true, List.all_eq_true, decide_eq_true_eq]
      constructor
      · rintro ⟨⟨⟨h1, h2⟩, h3⟩, h4⟩
        exact ⟨c, rest, rfl, h1, h2, h3, h4⟩
      · rintro ⟨c0, rest0, heq, h1, h2, h3, h4⟩
        injection heq with hc hr
        subst hc; subst hr
        exact ⟨⟨⟨h1, h2⟩, h3⟩, h4⟩

theorem e164Test_iff (t : String) : e164Test t = true ↔ E164Spec t := by
  unfold e164Test E164Spec
  rcases hd : t.data with _ | ⟨x, xs⟩
  · simp [hd, e164Body]
  · by_cases hx : x = '+'
    · subst hx
      simp only [List.head?_cons, List.tail_cons]
      rw [if_pos trivial, e164Body_iff]
      constructor
      · rintro ⟨c0, rest, rfl, h1, h2, h3, h4⟩
        exact ⟨c0, rest, Or.inr rfl, h1, h2, h3, h4⟩
      · rintro ⟨c0, rest, hdis, h1, h2, h3, h4⟩
        rcases hdis with heq | heq
        · injection heq with hc _
          exact absurd h1 (by rw [← hc]; decide)
        · injection heq with _ hr
          exact ⟨c0, rest, hr, h1, h2, h3, h4⟩
    · simp only [List.head?_cons]
      rw [if_neg (by simpa using hx), e164Body_iff]
      constructor
      · rintro ⟨c0, rest, heq, h1, h2, h3, h4⟩
        exact ⟨c0, rest, Or.inl heq, h1, h2, h3, h4⟩
      · rintro ⟨c0, rest, hdis, h1, h2, h3, h4⟩
        rcases hdis with heq | heq
        · exact ⟨c0, rest, heq, h1, h2, h3, h4⟩
        · injection heq with hc _
          exact absurd hc hx

/-- C6: `validate(phone)` is true iff the string with all whitespace removed
matches the pattern: optional leading `+`, a first digit 1-9, then 1 to 14
further digits; with the six concrete evaluations the specification lists. -/
theorem validate_iff_e164_pattern :
    (∀ s : String, validatePhoneNumber s = true ↔ E164Spec (stripWhitespace s)) ∧
    validatePhoneNumber "+14155551234" = true ∧
    validatePhoneNumber "14155551234" = true ∧
    validatePhoneNumber "abc" = false ∧
    validatePhoneNumber "+0123" = false ∧
    validatePhoneNumber "" = false ∧
    validatePhoneNumber "123456789012345678" = false :=
  ⟨fun _ => e164Test_iff _, by decide, by decide, by decide, by decide, by decide, by decide⟩

/-! ### Claims C7 and C8: `formatPhoneNumber` -/

theorem string_ext {a b : String} (h : a.data = b.data) : a = b := by
  cases a; cases b; exact congrArg String.mk h

theorem digitsOf_data (s : String) : (digitsOf s).data = s.data.filter isDigitChar := rfl

theorem digitsOf_all_digits (s : String) : ∀ c ∈ (digitsOf s).data, isDigitChar c = true := by
  intro c hc
  rw [digitsOf_data] at hc
  exact (List.mem_filter.mp hc).2

theorem digitsOf_head_ne_plus (s : String) : (digitsOf s).data.head? ≠ some '+' := by
  intro h
  rcases hl : (digitsOf s).data with _ | ⟨c, cs⟩
  · rw [hl] at h
    exact absurd h (by simp)
  · rw [hl] at h
    simp only [List.head?_cons, Option.some.injEq] at h
    have hm := digitsOf_all_digits s c (by rw [hl]; exact List.mem_cons_self _ _)
    rw [h] at hm
    exact absurd hm (by decide)

/-- The branch testing `cleaned.startsWith('+')` is dead code: `cleaned` is
digits only, so `formatPhoneNumber` always prepends the plus (and a country
code for ten-digit inputs). -/
theorem formatPhoneNumber_eq (s : String) :
    formatPhoneNumber s =
      "+" ++ (if (digitsOf s).length = 10 then "1" ++ digitsOf s else digitsOf s) := by
  unfold formatPhoneNumber
  rw [if_neg (digitsOf_head_ne_plus s)]

/-- C7: `normalize` strips all non-digit characters, prepends `1` when the
resulting digit string has exactly 10 digits, and prepends `+`; with the two
concrete evaluations the specification lists. -/
theorem normalize_strips_and_prefixes :
    (∀ s : String, formatPhoneNumber s =
       "+" ++ (if (digitsOf s).length = 10 then "1" ++ digitsOf s else digitsOf s)) ∧
    formatPhoneNumber "(415) 555-1234" = "+14155551234" ∧
    formatPhoneNumber "+44 20 7946 0958" = "+442079460958" :=
  ⟨formatPhoneNumber_eq, by decide, by decide⟩

theorem digitsOf_of_all_digits {t : String} (h : ∀ c ∈ t.data, isDigitChar c = true) :
    digitsOf t = t :=
  string_ext (by rw [digitsOf_data]; exact List.filter_eq_self.mpr h)

/-- C8: `normalize` is idempotent — applied to its own output (already in
canonical `+digits` form) it yields the same string. -/
theorem normalize_idempotent (s : String) :
    formatPhoneNumber (formatPhoneNumber s) = formatPhoneNumber s := by
  have hd := digitsOf_all_digits s
  set d := digitsOf s with hdef
  set d2 := if d.length = 10 then "1" ++ d else d with hd2
  have hall : ∀ c ∈ d2.data, isDigitChar c = true := by
    rw [hd2]; split
    · intro c hc
      rw [String.data_append] at hc
      rcases List.mem_append.mp hc with h1 | h1
      · rw [show ("1" : String).data = ['1'] from rfl] at h1
        simp only [List.mem_singleton] at h1
        rw [h1]; decide
      · exact hd c h1
    · exact hd
  have hlen : ¬d2.length = 10 := by
    rw [hd2]; split
    · rename_i hten
      rw [String.length_append, hten]
      decide
    · assumption
  have hout : formatPhoneNumber s = "+" ++ d2 := formatPhoneNumber_eq s
  have hdig : digitsOf ("+" ++ d2) = d2 := by
    apply string_ext
    rw [digitsOf_data, String.data_append,
      show ("+" : String).data = ['+'] from rfl, List.filter_append]
    rw [show List.filter isDigitChar ['+'] = [] from rfl, List.nil_append]
    exact List.filter_eq_self.mpr hall
  rw [hout, formatPhoneNumber_eq, hdig, if_neg hlen]

/-! ### Claims C2 and C9: the dispatch loop -/

theorem contactStep_ok_of_wellFormed (cap : String → String → CapOutcome)
    (message : String) {c : JsContact} (h : wellFormed c = true) :
    ∃ pr, contactStep cap message c = Except.ok pr := by
  cases c with
  | str s => exact ⟨_, rfl⟩
  | obj pf nf =>
      cases pf with
      | strF s =>
          have hs : ¬s = "" := by
            simpa [wellFormed] using h
          exact ⟨sendOne cap message s (jsOr nf "Emergency Contact"), by
            simp [contactStep, hs]⟩
      | absent => exact absurd h (by simp [wellFormed])
      | numF n => exact absurd h (by simp [wellFormed])
      | nullF => exact absurd h (by simp [wellFormed])
  | nullc => exact absurd h (by simp [wellFormed])
  | num n => exact absurd h (by simp [wellFormed])

theorem contactStep_error_of_malformed (cap : String → String → CapOutcome)
    (message : String) {c : JsContact} (h : wellFormed c = false) :
    contactStep cap message c = Except.error "TypeError" := by
  cases c with
  | str s => exact absurd h (by simp [wellFormed])
  | obj pf nf =>
      cases pf with
      | strF s =>
          have hs : s = "" := by
            simpa [wellFormed] using h
          simp [contactStep, hs]
      | absent => rfl
      | numF n => rfl
      | nullF => rfl
  | nullc => rfl
  | num n => rfl

theorem dispatchLoop_ok_of_wellFormed (cap : String → String → CapOutcome)
    (message : String) (cs : List JsContact) (h : ∀ c ∈ cs, wellFormed c = true) :
    ∃ rs calls, dispatchLoop cap message cs = (Except.ok rs, calls) ∧
      rs.length = cs.length ∧
      ∀ (i : ℕ) (c : JsContact), cs[i]? = some c →
        ∃ pr, contactStep cap message c = Except.ok pr ∧ rs[i]? = some pr.1 := by
  induction cs with
  | nil => exact ⟨[], [], rfl, rfl, by intro i c hc; simp at hc⟩
  | cons c0 rest ih =>
      obtain ⟨pr, hpr⟩ := contactStep_ok_of_wellFormed cap message
        (h c0 (List.mem_cons_self _ _))
      obtain ⟨rs, calls, hloop, hlen, hidx⟩ := ih (fun c hc => h c (List.mem_cons_of_mem _ hc))
      refine ⟨pr.1 :: rs, pr.2 ++ calls, ?_, by simpa using hlen, ?_⟩
      · simp only [dispatchLoop, hpr, hloop, Except.map]
      · intro i c hc
        cases i with
        | zero =>
            simp only [List.getElem?_cons_zero, Option.some.injEq] at hc
            exact ⟨pr, by rw [← hc]; exact hpr, by simp⟩
        | succ n =>
            simp only [List.getElem?_cons_succ] at hc
            obtain ⟨pr2, h1, h2⟩ := hidx n c hc
            exact ⟨pr2, h1, by simpa using h2⟩

/-- C2 (amended): for a contact list of well-formed shapes — bare phone
strings, or objects whose `phone` field is a non-empty string — the dispatch
loop never raises, returns exactly one result per contact in input order
(position `i` of the output is what `contactStep` produced for contact `i`);
a contact failing validation yields the fixed invalid-format record with no
capability invocation, and a contact whose capability call throws yields a
`success := false` record carrying the thrown message, the loop continuing
either way. Without the shape restriction the claim is false: an object
contact with an empty-string `phone` has a validate-failing string phone yet
makes the loop throw, since `contact.phone || contact` falls through to the
object. -/
theorem sendAll_returns_one_result_per_contact (cap : String → String → CapOutcome)
    (message : String) (cs : List JsContact) (h : ∀ c ∈ cs, wellFormed c = true) :
    (∃ rs calls, dispatchLoop cap message cs = (Except.ok rs, calls) ∧
       rs.length = cs.length ∧
       ∀ (i : ℕ) (c : JsContact), cs[i]? = some c →
         ∃ pr, contactStep cap message c = Except.ok pr ∧ rs[i]? = some pr.1) ∧
    (∀ phone name : String, validatePhoneNumber phone = false →
       sendOne cap message phone name =
         ({ phone := phone, name := name, success := false, sid := none, status := none,
            error := some "Invalid phone number format" }, [])) ∧
    (∀ phone name e : String, validatePhoneNumber phone = true →
       cap ("whatsapp:" ++ formatPhoneNumber phone) message = Except.error e →
       sendOne cap message phone name =
         ({ phone := phone, name := name, success := false, sid := none, status := none,
            error := some e }, [("whatsapp:" ++ formatPhoneNumber phone, message)])) := by
  refine ⟨dispatchLoop_ok_of_wellFormed cap message cs h, ?_, ?_⟩
  · intro phone name hv
    simp [sendOne, hv]
  · intro phone name e hv hthrow
    simp [sendOne, hv, sendWhatsAppMessage, hthrow]

/-- A concrete capability for witnesses: succeeds for one known destination
and throws for every other. -/
def capW : String → String → CapOutcome :=
  fun dest _ =>
    if dest = "whatsapp:+14155551234" then Except.ok ("SM1", "queued")
    else Except.error "boom"

/-- Three contacts: a valid phone, an invalid phone, and a valid phone whose
capability call throws. -/
def csW : List JsContact :=
  [.str "+14155551234", .str "abc", .obj (.strF "+442079460958") (some "Carol")]

theorem sendAll_returns_one_result_per_contact_witness :
    (∃ rs calls, dispatchLoop capW "m" csW = (Except.ok rs, calls) ∧
       rs.length = csW.length ∧
       ∀ (i : ℕ) (c : JsContact), csW[i]? = some c →
         ∃ pr, contactStep capW "m" c = Except.ok pr ∧ rs[i]? = some pr.1) ∧
    (∀ phone name : String, validatePhoneNumber phone = false →
       sendOne capW "m" phone name =
         ({ phone := phone, name := name, success := false, sid := none, status := none,
            error := some "Invalid phone number format" }, [])) ∧
    (∀ phone name e : String, validatePhoneNumber phone = true →
       capW ("whatsapp:" ++ formatPhoneNumber phone) "m" = Except.error e →
       sendOne capW "m" phone name =
         ({ phone := phone, name := name, success := false, sid := none, status := none,
            error := some e }, [("whatsapp:" ++ formatPhoneNumber phone, "m")])) :=
  sendAll_returns_one_result_per_contact capW "m" csW (by decide)

/-- Counterexample to C2 as stated: the contact list `[{phone: ""}]` holds an
object contact whose `phone` is a string that fails `validate`, yet the
dispatch loop raises (in the source, `contact.phone || contact` resolves the
falsy empty string to the object itself and `phone.replace` throws) instead
of returning the invalid-format record — so `sendAll` does not return one
result per contact and does raise. -/
theorem sendAll_raises_on_empty_string_phone :
    dispatchLoop capW "m" [.obj (.strF "") none] = (Except.error "TypeError", []) ∧
    validatePhoneNumber "" = false :=
  ⟨rfl, rfl⟩

theorem dispatchLoop_error_of_malformed (cap : String → String → CapOutcome)
    (message : String) (cs : List JsContact) (h : ∃ c ∈ cs, wellFormed c = false) :
    ∃ calls, dispatchLoop cap message cs = (Except.error "TypeError", calls) := by
  induction cs with
  | nil => simp at h
  | cons c0 rest ih =>
      by_cases hw : wellFormed c0 = true
      · obtain ⟨pr, hpr⟩ := contactStep_ok_of_wellFormed cap message hw
        have hrest : ∃ c ∈ rest, wellFormed c = false := by
          obtain ⟨c, hc, hcw⟩ := h
          rcases List.mem_cons.mp hc with rfl | hc2
          · exact absurd hw (by rw [hcw]; simp)
          · exact ⟨c, hc2, hcw⟩
        obtain ⟨calls2, hloop⟩ := ih hrest
        exact ⟨pr.2 ++ calls2, by simp only [dispatchLoop, hpr, hloop, Except.map]⟩
      · have hw2 : wellFormed c0 = false := by simpa using hw
        exact ⟨[], by simp only [dispatchLoop,
          contactStep_error_of_malformed cap message hw2]⟩

/-! ### Path lemmas for the /api/send-alert handler -/

theorem handleSendAlert_duplicate (env : Env) (now : ℤ) (store : AlertStore)
    (cs : List JsContact) (lat lng : ℚ) (ts : String) (un : Option String)
    (hne : cs ≠ [])
    (hdup : storeHas store (alertKey ts lat lng) = true) :
    handleSendAlert env now store ⟨.arr cs, .loc (.num lat) (.num lng), ts, un⟩ =
      ⟨.tooMany "Duplicate alert detected. Please wait before sending another alert.",
       store, []⟩ := by
  dsimp only [handleSendAlert]
  rw [if_neg (by simpa [List.length_eq_zero] using hne)]
  rw [if_pos hdup]

theorem handleSendAlert_ok_path (env : Env) (now : ℤ) (store : AlertStore)
    (cs : List JsContact) (lat lng : ℚ) (ts : String) (un : Option String)
    (rs : List DispatchResult) (calls : List (String × String))
    (hne : cs ≠ [])
    (hdup : storeHas store (alertKey ts lat lng) = false)
    (hloop : dispatchLoop env.send (composeAlert env un lat lng ts) cs =
      (Except.ok rs, calls)) :
    handleSendAlert env now store ⟨.arr cs, .loc (.num lat) (.num lng), ts, un⟩ =
      ⟨.okResp true ("Alerts sent: " ++ toString (rs.filter (fun r => r.success)).length ++
         " successful, " ++ toString (rs.filter (fun r => !r.success)).length ++ " failed") rs,
       sweep now (store ++ [(alertKey ts lat lng, now)]), calls⟩ := by
  dsimp only [handleSendAlert]
  rw [if_neg (by simpa [List.length_eq_zero] using hne)]
  rw [if_neg (by simp [hdup])]
  rw [hloop]

theorem handleSendAlert_error_path (env : Env) (now : ℤ) (store : AlertStore)
    (cs : List JsContact) (lat lng : ℚ) (ts : String) (un : Option String)
    (e : String) (calls : List (String × String))
    (hne : cs ≠ [])
    (hdup : storeHas store (alertKey ts lat lng) = false)
    (hloop : dispatchLoop env.send (composeAlert env un lat lng ts) cs =
      (Except.error e, calls)) :
    handleSendAlert env now store ⟨.arr cs, .loc (.num lat) (.num lng), ts, un⟩ =
      ⟨.serverError "Internal server error",
       sweep now (store ++ [(alertKey ts lat lng, now)]), calls⟩ := by
  dsimp only [handleSendAlert]
  rw [if_neg (by simpa [List.length_eq_zero] using hne)]
  rw [if_neg (by simp [hdup])]
  rw [hloop]

/-- C9: a contact that is neither a string nor an object with a truthy string
`phone` field makes the loop throw; the request that reached dispatch then
returns 500 "Internal server error" and the per-contact results are
discarded (the 500 response carries none). -/
theorem malformed_contact_aborts_with_500 (env : Env) (now : ℤ) (store : AlertStore)
    (cs : List JsContact) (lat lng : ℚ) (ts : String) (un : Option String)
    (hdup : storeHas store (alertKey ts lat lng) = false)
    (hbad : ∃ c ∈ cs, wellFormed c = false) :
    ∃ calls,
      dispatchLoop env.send (composeAlert env un lat lng ts) cs =
        (Except.error "TypeError", calls) ∧
      handleSendAlert env now store ⟨.arr cs, .loc (.num lat) (.num lng), ts, un⟩ =
        ⟨.serverError "Internal server error",
         sweep now (store ++ [(alertKey ts lat lng, now)]), calls⟩ ∧
      AlertResponse.statusCode (.serverError "Internal server error") = 500 := by
  have hne : cs ≠ [] := by
    rintro rfl; simp at hbad
  obtain ⟨calls, hloop⟩ := dispatchLoop_error_of_malformed env.send _ cs hbad
  exact ⟨calls, hloop,
    handleSendAlert_error_path env now store cs lat lng ts un _ calls hne hdup hloop, rfl⟩

theorem malformed_contact_aborts_with_500_witness :
    ∃ calls,
      dispatchLoop capW (composeAlert ⟨capW, fun _ => "N", fun _ => "T"⟩ (some "Alice") 1 2 "t")
          [.str "+14155551234", .nullc] =
        (Except.error "TypeError", calls) ∧
      handleSendAlert ⟨capW, fun _ => "N", fun _ => "T"⟩ 0 []
          ⟨.arr [.str "+14155551234", .nullc], .loc (.num 1) (.num 2), "t", some "Alice"⟩ =
        ⟨.serverError "Internal server error",
         sweep 0 ([] ++ [(alertKey "t" 1 2, 0)]), calls⟩ ∧
      AlertResponse.statusCode (.serverError "Internal server error") = 500 :=
  malformed_contact_aborts_with_500 ⟨capW, fun _ => "N", fun _ => "T"⟩ 0 []
    [.str "+14155551234", .nullc] 1 2 "t" (some "Alice") (by decide)
    ⟨.nullc, by decide, rfl⟩

/-! ### Claim C4: request validation -/

/-- C4: a missing, non-array or empty `contacts` field yields 400
"No contacts provided"; a missing location or a non-numeric `lat`/`lng`
yields 400 "Invalid location data"; in both cases the handler returns before
recording any fingerprint (store unchanged) and before any capability
invocation (empty call list). -/
theorem alert_validation_short_circuits (env : Env) (now : ℤ) (store : AlertStore)
    (lf : LocationField) (ts : String) (un : Option String) :
    (∀ cf, (cf = ContactsField.missing ∨ cf = ContactsField.nonArray ∨
        cf = ContactsField.arr []) →
       handleSendAlert env now store ⟨cf, lf, ts, un⟩ =
         ⟨.badRequest "No contacts provided", store, []⟩) ∧
    (∀ cs : List JsContact, cs ≠ [] →
       (lf = LocationField.missing ∨
        (∃ lngF, lf = LocationField.loc NumField.nonNum lngF) ∨
        (∃ latF, lf = LocationField.loc latF NumField.nonNum)) →
       handleSendAlert env now store ⟨.arr cs, lf, ts, un⟩ =
         ⟨.badRequest "Invalid location data", store, []⟩) ∧
    (∀ e, (AlertResponse.badRequest e).statusCode = 400) := by
  refine ⟨?_, ?_, fun e => rfl⟩
  · rintro cf (rfl | rfl | rfl) <;> rfl
  · rintro cs hne (rfl | ⟨lngF, rfl⟩ | ⟨latF, rfl⟩)
    · dsimp only [handleSendAlert]
      rw [if_neg (by simpa [List.length_eq_zero] using hne)]
    · dsimp only [handleSendAlert]
      rw [if_neg (by simpa [List.length_eq_zero] using hne)]
    · dsimp only [handleSendAlert]
      rw [if_neg (by simpa [List.length_eq_zero] using hne)]
      cases latF <;> rfl

/-- A concrete environment for witnesses. -/
def envW : Env := ⟨capW, fun _ => "N", fun _ => "T"⟩

theorem alert_validation_short_circuits_witness :
    handleSendAlert envW 0 [("k", 0)] ⟨.missing, .missing, "t", none⟩ =
      ⟨.badRequest "No contacts provided", [("k", 0)], []⟩ ∧
    handleSendAlert envW 0 [("k", 0)] ⟨.arr [.str "p"], .loc .nonNum (.num 1), "t", none⟩ =
      ⟨.badRequest "Invalid location data", [("k", 0)], []⟩ :=
  ⟨(alert_validation_short_circuits envW 0 [("k", 0)] .missing "t" none).1
      .missing (Or.inl rfl),
   (alert_validation_short_circuits envW 0 [("k", 0)] (.loc .nonNum (.num 1)) "t" none).2.1
      [.str "p"] (by decide) (Or.inr (Or.inl ⟨.num 1, rfl⟩))⟩

/-! ### Claim C5: the 200 success envelope -/

theorem dispatchLoop_ok_length (cap : String → String → CapOutcome) (message : String)
    {cs : List JsContact} {rs : List DispatchResult} {calls : List (String × String)}
    (h : dispatchLoop cap message cs = (Except.ok rs, calls)) : rs.length = cs.length := by
  induction cs generalizing rs calls with
  | nil =>
      simp only [dispatchLoop, Prod.mk.injEq, Except.ok.injEq] at h
      rw [← h.1]
      rfl
  | cons c0 rest ih =>
      rcases hstep : contactStep cap message c0 with e | pr
      · simp only [dispatchLoop, hstep] at h
        simp at h
      · simp only [dispatchLoop, hstep] at h
        rcases hrest : dispatchLoop cap message rest with ⟨res, calls2⟩
        rw [hrest] at h
        dsimp only at h
        rcases res with e2 | rs2
        · simp [Except.map] at h
        · simp only [Except.map, Except.ok.injEq, Prod.mk.injEq] at h
          rw [← h.1]
          simp only [List.length_cons, List.length_cons, ih hrest]

/-- C5 (amended): a request that passes validation and dedup AND whose
dispatch loop completes without an uncaught throw (which holds in particular
whenever every contact is a bare string or an object with a non-empty string
`phone`) gets a 200 response with `success := true`, the full result list,
and the summary "Alerts sent: N successful, M failed" where N counts
successes, M counts failures, and N + M equals the number of contacts — even
when every contact send failed. Without the loop-completion condition the
claim is false: a request whose contact list makes the loop throw passes
validation and dedup yet returns 500. -/
theorem alert_success_envelope (env : Env) (now : ℤ) (store : AlertStore)
    (cs : List JsContact) (lat lng : ℚ) (ts : String) (un : Option String)
    (rs : List DispatchResult) (calls : List (String × String))
    (hne : cs ≠ [])
    (hdup : storeHas store (alertKey ts lat lng) = false)
    (hloop : dispatchLoop env.send (composeAlert env un lat lng ts) cs =
      (Except.ok rs, calls)) :
    (handleSendAlert env now store ⟨.arr cs, .loc (.num lat) (.num lng), ts, un⟩).resp =
      .okResp true ("Alerts sent: " ++ toString (rs.filter (fun r => r.success)).length ++
        " successful, " ++ toString (rs.filter (fun r => !r.success)).length ++ " failed") rs ∧
    ((handleSendAlert env now store ⟨.arr cs, .loc (.num lat) (.num lng), ts, un⟩).resp).statusCode
      = 200 ∧
    (rs.filter (fun r => r.success)).length + (rs.filter (fun r => !r.success)).length
      = cs.length := by
  rw [handleSendAlert_ok_path env now store cs lat lng ts un rs calls hne hdup hloop]
  refine ⟨rfl, rfl, ?_⟩
  rw [← dispatchLoop_ok_length env.send _ hloop]
  exact (List.length_eq_length_filter_add (fun (r : DispatchResult) => r.success)).symm

/-- An environment whose capability always throws: every contact send
fails. -/
def envF : Env := ⟨fun _ _ => Except.error "down", fun _ => "N", fun _ => "T"⟩

/-- The single failed result the all-throwing capability produces. -/
def failedResult : DispatchResult :=
  { phone := "+14155551234", name := "Emergency Contact", success := false,
    sid := none, status := none, error := some "down" }

theorem alert_success_envelope_witness :
    (handleSendAlert envF 0 [] ⟨.arr [.str "+14155551234"], .loc (.num 1) (.num 2), "t", none⟩).resp =
      .okResp true ("Alerts sent: " ++
        toString (([failedResult].filter (fun r => r.success)).length) ++
        " successful, " ++
        toString (([failedResult].filter (fun r => !r.success)).length) ++
        " failed") [failedResult] ∧
    ((handleSendAlert envF 0 [] ⟨.arr [.str "+14155551234"], .loc (.num 1) (.num 2), "t", none⟩).resp).statusCode
      = 200 ∧
    ([failedResult].filter (fun r => r.success)).length +
      ([failedResult].filter (fun r => !r.success)).length
      = ([JsContact.str "+14155551234"] : List JsContact).length :=
  alert_success_envelope envF 0 [] [.str "+14155551234"] 1 2 "t" none
    [failedResult] [("whatsapp:+14155551234", composeAlert envF none 1 2 "t")]
    (by decide) rfl rfl

/-- Counterexample to C5 as stated: the request with contact list `[null]`
passes contacts/location validation (a non-empty array, numeric
coordinates) and is not a duplicate (empty store), yet receives a 500
"Internal server error" response instead of the 200 summary envelope. -/
theorem alert_with_null_contact_returns_500 :
    (handleSendAlert envW 0 [] ⟨.arr [.nullc], .loc (.num 1) (.num 2), "t", none⟩).resp
      = .serverError "Internal server error" ∧
    ((handleSendAlert envW 0 []
        ⟨.arr [.nullc], .loc (.num 1) (.num 2), "t", none⟩).resp).statusCode = 500 :=
  ⟨by decide, by decide⟩

/-! ### Claims C1 and C3: deduplication and the sweep -/

theorem sweep_singleton_now (now : ℤ) (key : String) :
    sweep now [(key, now)] = [(key, now)] := by
  have h : ¬(now < now - 5 * 60 * 1000) := by omega
  simp [sweep, h]

theorem sweep_mem_young {now : ℤ} {l : AlertStore} {e : String × ℤ}
    (h : e ∈ sweep now l) : now - 5 * 60 * 1000 ≤ e.2 := by
  have h2 := (List.mem_filter.mp h).2
  simp only [Bool.not_eq_true', decide_eq_false_iff_not] at h2
  omega

/-- C1 (amended): with one fingerprint, the first request proceeds to
dispatch (200) and records the fingerprint; the second is rejected 429; and a
third arriving when the entry is six minutes old is STILL rejected 429 — the
duplicate check runs before any sweep and no sweep runs on the duplicate
path, so the stale entry has not been removed. -/
theorem dedup_rejects_second_and_stale_third (env : Env) (t0 : ℤ)
    (cs : List JsContact) (lat lng : ℚ) (ts : String) (un : Option String)
    (hne : cs ≠ []) (hwf : ∀ c ∈ cs, wellFormed c = true) :
    (handleSendAlert env t0 [] ⟨.arr cs, .loc (.num lat) (.num lng), ts, un⟩).resp.statusCode
      = 200 ∧
    (handleSendAlert env t0 [] ⟨.arr cs, .loc (.num lat) (.num lng), ts, un⟩).store
      = [(alertKey ts lat lng, t0)] ∧
    (handleSendAlert env t0 [(alertKey ts lat lng, t0)]
        ⟨.arr cs, .loc (.num lat) (.num lng), ts, un⟩).resp
      = .tooMany "Duplicate alert detected. Please wait before sending another alert." ∧
    (handleSendAlert env t0 [(alertKey ts lat lng, t0)]
        ⟨.arr cs, .loc (.num lat) (.num lng), ts, un⟩).store
      = [(alertKey ts lat lng, t0)] ∧
    (handleSendAlert env (t0 + 6 * 60 * 1000) [(alertKey ts lat lng, t0)]
        ⟨.arr cs, .loc (.num lat) (.num lng), ts, un⟩).resp
      = .tooMany "Duplicate alert detected. Please wait before sending another alert." ∧
    ((handleSendAlert env (t0 + 6 * 60 * 1000) [(alertKey ts lat lng, t0)]
        ⟨.arr cs, .loc (.num lat) (.num lng), ts, un⟩).resp).statusCode = 429 := by
  obtain ⟨rs, calls, hloop, _, _⟩ := dispatchLoop_ok_of_wellFormed env.send
    (composeAlert env un lat lng ts) cs hwf
  have h1 := handleSendAlert_ok_path env t0 [] cs lat lng ts un rs calls hne rfl hloop
  have hdup : storeHas [(alertKey ts lat lng, t0)] (alertKey ts lat lng) = true := by
    simp [storeHas]
  have h2 := handleSendAlert_duplicate env t0 [(alertKey ts lat lng, t0)]
    cs lat lng ts un hne hdup
  have h3 := handleSendAlert_duplicate env (t0 + 6 * 60 * 1000) [(alertKey ts lat lng, t0)]
    cs lat lng ts un hne hdup
  rw [h1, h2, h3]
  refine ⟨rfl, ?_, rfl, rfl, rfl, rfl⟩
  rw [List.nil_append]
  exact sweep_singleton_now t0 _

theorem dedup_rejects_second_and_stale_third_witness :
    (handleSendAlert envW 0 [] ⟨.arr [.str "+14155551234"], .loc (.num 1) (.num 2),
        "1700000000000", some "Alice"⟩).resp.statusCode = 200 ∧
    (handleSendAlert envW 0 [] ⟨.arr [.str "+14155551234"], .loc (.num 1) (.num 2),
        "1700000000000", some "Alice"⟩).store = [(alertKey "1700000000000" 1 2, 0)] ∧
    (handleSendAlert envW 0 [(alertKey "1700000000000" 1 2, 0)]
        ⟨.arr [.str "+14155551234"], .loc (.num 1) (.num 2), "1700000000000", some "Alice"⟩).resp
      = .tooMany "Duplicate alert detected. Please wait before sending another alert." ∧
    (handleSendAlert envW 0 [(alertKey "1700000000000" 1 2, 0)]
        ⟨.arr [.str "+14155551234"], .loc (.num 1) (.num 2), "1700000000000", some "Alice"⟩).store
      = [(alertKey "1700000000000" 1 2, 0)] ∧
    (handleSendAlert envW ((0 : ℤ) + 6 * 60 * 1000) [(alertKey "1700000000000" 1 2, 0)]
        ⟨.arr [.str "+14155551234"], .loc (.num 1) (.num 2), "1700000000000", some "Alice"⟩).resp
      = .tooMany "Duplicate alert detected. Please wait before sending another alert." ∧
    ((handleSendAlert envW ((0 : ℤ) + 6 * 60 * 1000) [(alertKey "1700000000000" 1 2, 0)]
        ⟨.arr [.str "+14155551234"], .loc (.num 1) (.num 2), "1700000000000", some "Alice"⟩).resp).statusCode
      = 429 :=
  dedup_rejects_second_and_stale_third envW 0 [.str "+14155551234"] 1 2
    "1700000000000" (some "Alice") (by decide) (by decide)

/-- The alert request used to refute C1 as stated. -/
def reqW : AlertRequest :=
  ⟨.arr [.str "+14155551234"], .loc (.num 1) (.num 2), "1700000000000", some "Alice"⟩

/-- Counterexample to C1 as stated: three same-fingerprint requests; the
first dispatches (200), the second is rejected (429), and the third —
arriving at `now = 360000` ms, six minutes after the entry was inserted at
time 0 — is ALSO rejected with 429, where the claim says it is not. -/
theorem dedup_stale_third_request_still_rejected :
    (handleSendAlert envW 0 [] reqW).resp.statusCode = 200 ∧
    (handleSendAlert envW 0 (handleSendAlert envW 0 [] reqW).store reqW).resp.statusCode = 429 ∧
    (handleSendAlert envW 360000 (handleSendAlert envW 0 [] reqW).store reqW).resp.statusCode
      = 429 :=
  ⟨by decide, by decide, by decide⟩

/-- C3 (amended): the sweep runs only on the non-duplicate path. After a
validation-passing request whose fingerprint was not already present, every
entry of the resulting store is at most five minutes old; after a duplicate
request the store is returned untouched, stale entries included. -/
theorem sweep_runs_only_on_new_alerts (env : Env) (now : ℤ) (store : AlertStore)
    (cs : List JsContact) (lat lng : ℚ) (ts : String) (un : Option String)
    (hne : cs ≠ []) :
    (storeHas store (alertKey ts lat lng) = false →
       ∀ e ∈ (handleSendAlert env now store
           ⟨.arr cs, .loc (.num lat) (.num lng), ts, un⟩).store,
         now - 5 * 60 * 1000 ≤ e.2) ∧
    (storeHas store (alertKey ts lat lng) = true →
       (handleSendAlert env now store
           ⟨.arr cs, .loc (.num lat) (.num lng), ts, un⟩).store = store) := by
  constructor
  · intro hdup e he
    rcases hl : dispatchLoop env.send (composeAlert env un lat lng ts) cs with ⟨res, calls⟩
    rcases res with er | rs
    · rw [handleSendAlert_error_path env now store cs lat lng ts un er calls hne hdup hl] at he
      exact sweep_mem_young he
    · rw [handleSendAlert_ok_path env now store cs lat lng ts un rs calls hne hdup hl] at he
      exact sweep_mem_young he
  · intro hdup
    rw [handleSendAlert_duplicate env now store cs lat lng ts un hne hdup]

theorem sweep_runs_only_on_new_alerts_witness :
    (storeHas [("old", -400000)] (alertKey "t" 1 2) = false →
       ∀ e ∈ (handleSendAlert envW 0 [("old", -400000)]
           ⟨.arr [.str "+14155551234"], .loc (.num 1) (.num 2), "t", none⟩).store,
         (0 : ℤ) - 5 * 60 * 1000 ≤ e.2) ∧
    (storeHas [("old", -400000)] (alertKey "t" 1 2) = true →
       (handleSendAlert envW 0 [("old", -400000)]
           ⟨.arr [.str "+14155551234"], .loc (.num 1) (.num 2), "t", none⟩).store
         = [("old", -400000)]) :=
  sweep_runs_only_on_new_alerts envW 0 [("old", -400000)] [.str "+14155551234"] 1 2 "t" none
    (by decide)

/-- The alert request used to refute C3 as stated. -/
def reqT : AlertRequest :=
  ⟨.arr [.str "+14155551234"], .loc (.num 1) (.num 2), "t", none⟩

/-- Counterexample to C3 as stated: a duplicate request observed at
`now = 360000` ms against a store whose matching entry was inserted at time
0 (older than the five-minute window) leaves the stale entry in the map —
the sweep did NOT run on the duplicate path. -/
theorem stale_entry_survives_duplicate_dedup_step :
    (handleSendAlert envW 360000 [(alertKey "t" 1 2, 0)] reqT).resp.statusCode = 429 ∧
    (handleSendAlert envW 360000 [(alertKey "t" 1 2, 0)] reqT).store
      = [(alertKey "t" 1 2, 0)] ∧
    ((0 : ℤ) < 360000 - 5 * 60 * 1000) :=
  ⟨by decide, by decide, by decide⟩

/-! ### Claim C10: the test-message route -/

theorem sendWhatsAppMessage_calls (cap : String → String → CapOutcome) (t m : String) :
    (sendWhatsAppMessage cap t m).2 = [("whatsapp:" ++ formatPhoneNumber t, m)] := by
  unfold sendWhatsAppMessage
  rcases h : cap ("whatsapp:" ++ formatPhoneNumber t) m with e | ⟨sid, st⟩ <;>
    simp only [h]

/-- C10: the test-message route checks only presence of `phone`: an absent or
empty (falsy) phone gives 400 "Phone number required" with no capability
invocation; any non-empty phone is normalized twice (once in the route, once
inside the send wrapper) and the capability is invoked —
`validatePhoneNumber` is never consulted, e.g. "0" fails validation yet is
sent. -/
theorem test_message_checks_presence_only (env : Env) :
    (∀ nm, handleTestMessage env ⟨none, nm⟩ = (.badRequest "Phone number required", [])) ∧
    (∀ nm, handleTestMessage env ⟨some "", nm⟩ = (.badRequest "Phone number required", [])) ∧
    (∀ (p : String) (nm : Option String), p ≠ "" →
       (handleTestMessage env ⟨some p, nm⟩).2 =
         [("whatsapp:" ++ formatPhoneNumber (formatPhoneNumber p), testBody)]) ∧
    validatePhoneNumber "0" = false ∧
    (TestResponse.badRequest "Phone number required").statusCode = 400 := by
  refine ⟨fun nm => rfl, fun nm => rfl, ?_, by decide, rfl⟩
  intro p nm hp
  dsimp only [handleTestMessage]
  rw [if_neg hp]
  rcases hsw : sendWhatsAppMessage env.send (formatPhoneNumber p) testBody with ⟨result, calls⟩
  have hc := sendWhatsAppMessage_calls env.send (formatPhoneNumber p) testBody
  rw [hsw] at hc
  exact hc

end ResQlink
